import Mathlib

/-!
# Spotilist: verification of the paginated playlist/track aggregation pipeline

Shallow embedding of `src/spotilist.py`.  JSON values are modelled by `JVal`,
Python exceptions by `PyErr`, and each core function of the source is
translated into an executable Lean definition:

* `parsePlaylist`  — `Playlist.__init__` (lines 56–84)
* `parseTrack`     — `Track.__init__` (lines 180–213)
* `downloadLoop` / `downloadTracks` — `Playlist.__download_tracks` (136–160),
  instrumented with a fuel counter (exhaustion models non-termination) and a
  request counter (number of `session.get` calls issued)
* `getTracks`      — `Playlist.get_tracks` (92–120)
* `write_csv`      — `Playlist.write_csv` (122–130)
* `spotify_get_playlists` — the playlist enumerator (250–290)
* `runTrackAggregation`   — step 3 of `main` (319–321)
-/

/-- A JSON-like Python value as produced by `response.json()`. -/
inductive JVal where
  | null
  | bool (b : Bool)
  | int (n : Int)
  | str (s : String)
  | arr (elems : List JVal)
  | obj (fields : List (String × JVal))

mutual

/-- Decidable equality for `JVal` (the derive handler does not support this
    nested inductive). -/
def JVal.decEq : (a b : JVal) → Decidable (a = b)
  | .null, .null => .isTrue rfl
  | .bool x, .bool y =>
    if h : x = y then .isTrue (by rw [h]) else .isFalse fun hh => h (by cases hh; rfl)
  | .int x, .int y =>
    if h : x = y then .isTrue (by rw [h]) else .isFalse fun hh => h (by cases hh; rfl)
  | .str x, .str y =>
    if h : x = y then .isTrue (by rw [h]) else .isFalse fun hh => h (by cases hh; rfl)
  | .arr xs, .arr ys =>
    match JVal.decEqList xs ys with
    | .isTrue h => .isTrue (by rw [h])
    | .isFalse h => .isFalse fun hh => h (by cases hh; rfl)
  | .obj xs, .obj ys =>
    match JVal.decEqObj xs ys with
    | .isTrue h => .isTrue (by rw [h])
    | .isFalse h => .isFalse fun hh => h (by cases hh; rfl)
  | .null, .bool _ => .isFalse (fun h => nomatch h)
  | .null, .int _ => .isFalse (fun h => nomatch h)
  | .null, .str _ => .isFalse (fun h => nomatch h)
  | .null, .arr _ => .isFalse (fun h => nomatch h)
  | .null, .obj _ => .isFalse (fun h => nomatch h)
  | .bool _, .null => .isFalse (fun h => nomatch h)
  | .bool _, .int _ => .isFalse (fun h => nomatch h)
  | .bool _, .str _ => .isFalse (fun h => nomatch h)
  | .bool _, .arr _ => .isFalse (fun h => nomatch h)
  | .bool _, .obj _ => .isFalse (fun h => nomatch h)
  | .int _, .null => .isFalse (fun h => nomatch h)
  | .int _, .bool _ => .isFalse (fun h => nomatch h)
  | .int _, .str _ => .isFalse (fun h => nomatch h)
  | .int _, .arr _ => .isFalse (fun h => nomatch h)
  | .int _, .obj _ => .isFalse (fun h => nomatch h)
  | .str _, .null => .isFalse (fun h => nomatch h)
  | .str _, .bool _ => .isFalse (fun h => nomatch h)
  | .str _, .int _ => .isFalse (fun h => nomatch h)
  | .str _, .arr _ => .isFalse (fun h => nomatch h)
  | .str _, .obj _ => .isFalse (fun h => nomatch h)
  | .arr _, .null => .isFalse (fun h => nomatch h)
  | .arr _, .bool _ => .isFalse (fun h => nomatch h)
  | .arr _, .int _ => .isFalse (fun h => nomatch h)
  | .arr _, .str _ => .isFalse (fun h => nomatch h)
  | .arr _, .obj _ => .isFalse (fun h => nomatch h)
  | .obj _, .null => .isFalse (fun h => nomatch h)
  | .obj _, .bool _ => .isFalse (fun h => nomatch h)
  | .obj _, .int _ => .isFalse (fun h => nomatch h)
  | .obj _, .str _ => .isFalse (fun h => nomatch h)
  | .obj _, .arr _ => .isFalse (fun h => nomatch h)

/-- Decidable equality for lists of `JVal`. -/
def JVal.decEqList : (a b : List JVal) → Decidable (a = b)
  | [], [] => .isTrue rfl
  | [], _ :: _ => .isFalse (fun h => nomatch h)
  | _ :: _, [] => .isFalse (fun h => nomatch h)
  | x :: xs, y :: ys =>
    match JVal.decEq x y, JVal.decEqList xs ys with
    | .isTrue h1, .isTrue h2 => .isTrue (by rw [h1, h2])
    | .isFalse h1, _ => .isFalse fun hh => h1 (by cases hh; rfl)
    | _, .isFalse h2 => .isFalse fun hh => h2 (by cases hh; rfl)

/-- Decidable equality for `JVal` object field lists. -/
def JVal.decEqObj : (a b : List (String × JVal)) → Decidable (a = b)
  | [], [] => .isTrue rfl
  | [], _ :: _ => .isFalse (fun h => nomatch h)
  | _ :: _, [] => .isFalse (fun h => nomatch h)
  | (k, v) :: xs, (k2, v2) :: ys =>
    if hk : k = k2 then
      match JVal.decEq v v2, JVal.decEqObj xs ys with
      | .isTrue h1, .isTrue h2 => .isTrue (by rw [hk, h1, h2])
      | .isFalse h1, _ => .isFalse fun hh => h1 (by cases hh; rfl)
      | _, .isFalse h2 => .isFalse fun hh => h2 (by cases hh; rfl)
    else .isFalse fun hh => hk (by cases hh; rfl)

end

instance : DecidableEq JVal := JVal.decEq

/-- Python exceptions that the translated code can raise. -/
inductive PyErr where
  /-- A `KeyError` from subscripting a dict with a missing key. -/
  | keyError (k : String)
  /-- A `TypeError` from applying an operation to a value of the wrong type. -/
  | typeError
  /-- An `AttributeError` from reading an attribute that was never assigned
      (or calling `.keys()` on a non-dict). -/
  | attributeError (name : String)
  /-- An explicit `raise Exception(msg)` in the source. -/
  | exn (msg : String)
deriving DecidableEq

/-- First binding of key `k` in a Python dict (`data[k]` when present). -/
def lookup (fields : List (String × JVal)) (k : String) : Option JVal :=
  match fields with
  | [] => none
  | (k', v) :: rest => if k' = k then some v else lookup rest k

/-- Python subscript `v[k]` with a string key: `KeyError` on a dict missing
    the key, `TypeError` on non-dict values. -/
def getItem (v : JVal) (k : String) : Except PyErr JVal :=
  match v with
  | .obj fields =>
    match lookup fields k with
    | some x => .ok x
    | none => .error (.keyError k)
  | _ => .error .typeError

/-- Python truthiness test (`not v`) for JSON values. -/
def isFalsy : JVal → Bool
  | .null => true
  | .bool b => !b
  | .int n => n == 0
  | .str s => s.isEmpty
  | .arr elems => elems.isEmpty
  | .obj fields => fields.isEmpty

/-- Python `len(v)`: sized types report their length, the rest raise
    `TypeError`. -/
def pyLen (v : JVal) : Except PyErr Nat :=
  match v with
  | .arr elems => .ok elems.length
  | .str s => .ok s.length
  | .obj fields => .ok fields.length
  | _ => .error .typeError

/-- Python iteration `for x in v` over a sized value: lists yield elements,
    strings yield one-character strings, dicts yield their keys. -/
def pyElems : JVal → List JVal
  | .arr elems => elems
  | .str s => s.toList.map (fun c => .str (String.mk [c]))
  | .obj fields => fields.map (fun kv => .str kv.1)
  | _ => []

/-- The `Track` object produced by `Track.__init__`; `album`, `artist` and
    `spotify_url` are only conditionally assigned. -/
structure TrackRec where
  album : Option JVal := none
  artist : Option JVal := none
  spotify_url : Option JVal := none
  name : JVal := .null
  track_number : JVal := .null
deriving DecidableEq

/-- The `Playlist` object: every attribute that `Playlist.__init__` assigns
    only conditionally is an `Option` (absent = never assigned). -/
structure PlaylistRec where
  description : Option JVal := none
  name : Option JVal := none
  owner : Option JVal := none
  tracks_size : Option JVal := none
  tracks_uri : Option JVal := none
  uri : Option JVal := none
  tracks : List TrackRec := []
deriving DecidableEq

/-- Translation of `Playlist.__init__` (src/spotilist.py lines 56–84).

Note the source's guard is inverted: `if 'type' not in data.keys():` followed
by `if data['type'] != 'playlist':` — when `'type'` is absent the subscript
`data['type']` raises `KeyError` before the comparison, and when `'type'` is
present the whole block is skipped.  Each metadata field is then copied only
if present; `data['tracks']['total']` / `['href']` are unguarded subscripts. -/
def parsePlaylist (data : JVal) : Except PyErr PlaylistRec :=
  match data with
  | .obj fields =>
    match lookup fields "type" with
    | none => .error (.keyError "type")
    | some _ =>
      match lookup fields "tracks" with
      | some tv =>
        match getItem tv "total" with
        | .error e => .error e
        | .ok total =>
          match getItem tv "href" with
          | .error e => .error e
          | .ok href =>
            .ok { description := lookup fields "description"
                  name := lookup fields "name"
                  owner := lookup fields "owner"
                  tracks_size := some total
                  tracks_uri := some href
                  uri := lookup fields "href"
                  tracks := [] }
      | none =>
        .ok { description := lookup fields "description"
              name := lookup fields "name"
              owner := lookup fields "owner"
              tracks_size := none
              tracks_uri := none
              uri := lookup fields "href"
              tracks := [] }
  | _ => .error (.attributeError "keys")

/-- Python `v[0]` on the artists value; only a non-empty list yields an
    element, any other sized value raises on the subscript or on the
    subsequent field accesses. -/
def getIndexZero (v : JVal) : Except PyErr JVal :=
  match v with
  | .arr (a :: _) => .ok a
  | _ => .error .typeError

/-- Continuation of `Track.__init__` after the album/artist extraction: the
    unconditional reads `self.track['name']` and `self.track['track_number']`
    (lines 212–213) and the construction of the final record. -/
def parseTrackFinish (tfs : List (String × JVal)) (album : Option JVal)
    (ar : Option JVal × Option JVal) : Except PyErr TrackRec :=
  match lookup tfs "name" with
  | none => .error (.keyError "name")
  | some nm =>
    match lookup tfs "track_number" with
    | none => .error (.keyError "track_number")
    | some tn =>
      .ok { album := album, artist := ar.1, spotify_url := ar.2,
            name := nm, track_number := tn }

/-- The artists block of `Track.__init__` (lines 204–210): only when
    `artists` is present and non-empty are `artist`/`spotify_url` assigned,
    from the first entry. -/
def parseTrackArtists (tfs : List (String × JVal)) (album : Option JVal) :
    Except PyErr TrackRec :=
  match lookup tfs "artists" with
  | some av =>
    match pyLen av with
    | .error e => .error e
    | .ok n =>
      if 0 < n then
        match getIndexZero av with
        | .error e => .error e
        | .ok a0 =>
          match getItem a0 "name" with
          | .error e => .error e
          | .ok an =>
            match getItem a0 "external_urls" with
            | .error e => .error e
            | .ok eu =>
              match getItem eu "spotify" with
              | .error e => .error e
              | .ok su => parseTrackFinish tfs album (some an, some su)
      else parseTrackFinish tfs album (none, none)
  | none => parseTrackFinish tfs album (none, none)

/-- Translation of `Track.__init__` (src/spotilist.py lines 180–213).

The type-tag subscript `self.track['type']` is evaluated at line 196, before
the falsiness test `if not data['track']` at line 198: an empty dict payload
therefore raises `KeyError('type')` and the line-198/199 branch is
unreachable for falsy payloads. -/
def parseTrack (data : JVal) : Except PyErr TrackRec :=
  match data with
  | .obj fields =>
    match lookup fields "track" with
    | none => .error (.exn "Invalid track dictionary for initialization")
    | some track =>
      match track with
      | .obj tfs =>
        match lookup tfs "type" with
        | none => .error (.keyError "type")
        | some ty =>
          if ty ≠ JVal.str "track" then .error (.exn "data is not of type \x22track\x22")
          else if isFalsy (.obj tfs) then .error (.exn "data is not of type \x22track\x22")
          else
            match lookup tfs "album" with
            | some av =>
              match getItem av "name" with
              | .error e => .error e
              | .ok an => parseTrackArtists tfs (some an)
            | none => parseTrackArtists tfs none
      | _ =>
        -- `self.track['type']` on a non-dict payload raises in Python
        .error .typeError
  | _ => .error (.attributeError "keys")

/-- One HTTP response as observed by the code: `response.status_code` and the
    parsed JSON body (always a dict in the endpoints consumed here). -/
structure HttpResponse where
  status : Nat
  body : List (String × JVal)
deriving DecidableEq

/-- Outcome of `Playlist.__download_tracks`, instrumented with the number of
    `session.get` calls issued.  `diverge` is the fuel-exhaustion marker: the
    source loop ran for the whole fuel budget without exiting. -/
inductive FetchResult where
  | diverge
  | pyerror (e : PyErr)
  | failed (reqs : Nat)
  | ok (items : List JVal) (reqs : Nat)
deriving DecidableEq

/-- The `while index < self.tracks_size` loop of `Playlist.__download_tracks`
    (src/spotilist.py lines 140–153) plus the final reconciliation check
    (lines 156–158).  `script n` is the response to the (n+1)-st request, so a
    scripted requester stands in for `session.get`; `fuel` bounds the number
    of loop-body executions and `reqs` counts the requests issued so far.

    - status 200 with an `items` list: append and advance `index` by the item
      count (line 147–149); with no `items` key: neither advances (the loop
      re-requests the same offset);
    - any other status: `index = self.tracks_size + 1` (line 152), which
      exits the loop at the next guard check;
    - on exit, `len(dlist) != self.tracks_size` turns the result into `None`
      (modelled as `failed`). -/
def downloadLoop (script : Nat → HttpResponse) (tracksSize : Int) :
    Nat → Int → List JVal → Nat → FetchResult
  | fuel, index, dlist, reqs =>
    if index < tracksSize then
      match fuel with
      | 0 => .diverge
      | fuel' + 1 =>
        if (script reqs).status = 200 then
          match lookup (script reqs).body "items" with
          | some (.arr items) =>
            downloadLoop script tracksSize fuel' (index + items.length) (dlist ++ items) (reqs + 1)
          | some _ =>
            -- `dlist += data['items']` with a non-list raises in Python
            .pyerror .typeError
          | none => downloadLoop script tracksSize fuel' index dlist (reqs + 1)
        else
          downloadLoop script tracksSize fuel' (tracksSize + 1) dlist (reqs + 1)
    else
      if (dlist.length : Int) = tracksSize then .ok dlist reqs else .failed reqs

/-- Translation of `Playlist.__download_tracks` from its initial state (`dlist = list()`,
    `index = 0`). -/
def downloadTracks (script : Nat → HttpResponse) (tracksSize : Int) (fuel : Nat) : FetchResult :=
  downloadLoop script tracksSize fuel 0 [] 0

/-- The list of raw items carried by a successful fetch, if any. -/
def FetchResult.fetchItems : FetchResult → Option (List JVal)
  | .ok items _ => some items
  | _ => none

/-- Items of the response to request `n` (empty when the `items` key is
    absent or not a list). -/
def itemsAt (script : Nat → HttpResponse) (n : Nat) : List JVal :=
  match lookup (script n).body "items" with
  | some (.arr items) => items
  | _ => []

/-- Cumulative number of items delivered by requests `a, a+1, …, a+i-1`. -/
def cumLen (script : Nat → HttpResponse) : Nat → Nat → Nat
  | _, 0 => 0
  | a, i + 1 => (itemsAt script a).length + cumLen script (a + 1) i

/-- Outcome of `Playlist.get_tracks`: the final value of `self.tracks`
    together with either the boolean return value or the uncaught exception
    that propagated out of the `Track(track)` loop. -/
inductive GetTracksResult where
  | diverge
  | exn (tracks : List TrackRec) (e : PyErr)
  | done (tracks : List TrackRec) (ret : Bool)
deriving DecidableEq

/-- Whether `get_tracks` returned normally (with either boolean). -/
def GetTracksResult.isDone : GetTracksResult → Bool
  | .done _ _ => true
  | _ => false

/-- The `for track in downloaded: self.tracks.append(Track(track))` loop of
    `get_tracks` (lines 113–114): tracks parsed before a failure stay
    appended, and the first parse exception propagates. -/
def parseTracksInto : List JVal → List TrackRec → GetTracksResult
  | [], acc => .done acc true
  | d :: ds, acc =>
    match parseTrack d with
    | .ok t => parseTracksInto ds (acc ++ [t])
    | .error e => .exn acc e

/-- Translation of `Playlist.get_tracks` (lines 92–120) for a non-`None` session.  The
    requester is keyed by the URI passed to `session.get`.  `self.tracks_size`
    is read at the loop guard (an unset attribute raises `AttributeError`, a
    non-integer one makes `index < self.tracks_size` raise `TypeError`);
    `self.tracks_uri` is only read when the loop body runs, i.e. when
    `0 < tracks_size`. -/
def getTracks (requester : JVal → Nat → HttpResponse) (fuel : Nat) (p : PlaylistRec) :
    GetTracksResult :=
  match p.tracks_size with
  | none => .exn p.tracks (.attributeError "tracks_size")
  | some sz =>
    match sz with
    | .int tracksSize =>
      match p.tracks_uri with
      | some u =>
        match downloadTracks (requester u) tracksSize fuel with
        | .diverge => .diverge
        | .pyerror e => .exn p.tracks e
        | .failed _ => .done p.tracks false
        | .ok items _ => parseTracksInto items p.tracks
      | none =>
        if 0 < tracksSize then .exn p.tracks (.attributeError "tracks_uri")
        else if tracksSize = 0 then
          -- loop skipped, `len([]) == 0`: download succeeds with no items
          parseTracksInto [] p.tracks
        else
          -- negative declared size: loop skipped, `len([]) != tracksSize`
          .done p.tracks false
    | _ => .exn p.tracks .typeError

/-- Rows produced for one track by `write_csv` (line 127): each of the four
    attribute reads raises `AttributeError` if the attribute was never
    assigned (`name` is always assigned by a successful parse). -/
def trackRow (t : TrackRec) : Except PyErr (List JVal) :=
  match t.album with
  | none => .error (.attributeError "album")
  | some al =>
    match t.artist with
    | none => .error (.attributeError "artist")
    | some ar =>
      match t.spotify_url with
      | none => .error (.attributeError "spotify_url")
      | some su => .ok [t.name, al, ar, su]

/-- Translation of `Playlist.write_csv` (lines 122–130): the playlist-name header row, the
    column-header row, one row per track, then the separator row. -/
def write_csv (p : PlaylistRec) : Except PyErr (List (List JVal)) :=
  match p.name with
  | none => .error (.attributeError "name")
  | some nm =>
    match p.tracks.mapM trackRow with
    | .error e => .error e
    | .ok rows =>
      .ok ([nm] ::
           [.str "Track", .str "Album", .str "Artist", .str "Spotify URL"] ::
           rows ++ [[.str "-", .str "-", .str "-", .str "-"]])

/-- Translation of `spotify_get_playlists` (src/spotilist.py lines 250–290), applied to the
    single listing response.  Non-200 status and a declared/actual count
    mismatch both return the still-empty `playlists` list; on a match every
    item is parsed through `Playlist(item)` (whose exceptions propagate). -/
def spotify_get_playlists (resp : HttpResponse) : Except PyErr (List PlaylistRec) :=
  if resp.status = 200 then
    match lookup resp.body "total" with
    | none => .error (.keyError "total")
    | some expected =>
      match lookup resp.body "items" with
      | none => .error (.keyError "items")
      | some items =>
        match pyLen items with
        | .error e => .error e
        | .ok n =>
          if expected = JVal.int n then (pyElems items).mapM parsePlaylist
          else .ok []
  else .ok []

/-- Outcome of step 3 of `main` (lines 319–321): either every playlist was
    processed, or an uncaught exception stopped the batch after `processed`
    playlists (in order), or some fetch loop never terminated. -/
inductive PipelineResult where
  | diverge
  | exn (processed : List PlaylistRec) (e : PyErr)
  | done (playlists : List PlaylistRec)
deriving DecidableEq

/-- Replace a playlist's `tracks` attribute (the mutation performed by
    `get_tracks`). -/
def setTracks (p : PlaylistRec) (tr : List TrackRec) : PlaylistRec :=
  { p with tracks := tr }

/-- The `for playlist in playlists: playlist.get_tracks(session)` loop of
    `main` (lines 320–321): the boolean returned by `get_tracks` is ignored,
    and an exception raised inside `get_tracks` propagates out of `main`,
    aborting the remaining playlists. -/
def runTrackAggregation (requester : JVal → Nat → HttpResponse) (fuel : Nat) :
    List PlaylistRec → List PlaylistRec → PipelineResult
  | [], acc => .done acc.reverse
  | p :: ps, acc =>
    match getTracks requester fuel p with
    | .diverge => .diverge
    | .exn tr e => .exn (acc.reverse ++ [setTracks p tr]) e
    | .done tr _ => runTrackAggregation requester fuel ps (setTracks p tr :: acc)

/-- Concatenation of a list of pages' item lists, in page order. -/
def flattenPages : List (List JVal) → List JVal
  | [] => []
  | l :: ls => l ++ flattenPages ls

/-- Total number of items across a list of pages. -/
def sumLens : List (List JVal) → Nat
  | [] => 0
  | l :: ls => l.length + sumLens ls

theorem flattenPages_eq_nil {ls : List (List JVal)} (h : sumLens ls = 0) :
    flattenPages ls = [] := by
  induction ls with
  | nil => rfl
  | cons l ls ih =>
    simp only [sumLens] at h
    have hl : l.length = 0 := by omega
    have hls : sumLens ls = 0 := by omega
    simp [flattenPages, List.length_eq_zero.mp hl, ih hls]

/-- A successful fetch always carries exactly `tracksSize` items: the terminal
    reconciliation `len(dlist) != self.tracks_size` guards every exit. -/
theorem downloadLoop_ok_length (script : Nat → HttpResponse) (tracksSize : Int) :
    ∀ (fuel : Nat) (index : Int) (dlist : List JVal) (reqs : Nat)
      (items : List JVal) (r : Nat),
      downloadLoop script tracksSize fuel index dlist reqs = .ok items r →
      (items.length : Int) = tracksSize := by
  intro fuel
  induction fuel with
  | zero =>
    intro index dlist reqs items r h
    rw [downloadLoop] at h
    split at h
    · exact absurd h (by simp)
    · split at h
      · rename_i hlen
        cases h
        exact hlen
      · exact absurd h (by simp)
  | succ fuel ih =>
    intro index dlist reqs items r h
    rw [downloadLoop] at h
    split at h
    · split at h
      · split at h
        · exact ih _ _ _ _ _ h
        · exact absurd h (by simp)
        · exact ih _ _ _ _ _ h
      · exact ih _ _ _ _ _ h
    · split at h
      · rename_i hlen
        cases h
        exact hlen
      · exact absurd h (by simp)

/-- Running the download loop against a scripted requester that serves the
    pages of `rest` (all status 200, `items` present) from request number
    `reqs` onwards: when the items already accumulated plus all remaining
    pages sum to exactly the declared total, the loop terminates successfully
    with every page's items appended in arrival order. -/
theorem downloadLoop_partition (script : Nat → HttpResponse) (tracksSize : Int) :
    ∀ (rest : List (List JVal)) (acc : List JVal) (reqs : Nat),
      (∀ i, i < rest.length →
        (script (reqs + i)).status = 200 ∧
        lookup (script (reqs + i)).body "items" = some (.arr (rest.getD i []))) →
      ((acc.length : Int) + sumLens rest = tracksSize) →
      ∃ r, downloadLoop script tracksSize rest.length (acc.length : Int) acc reqs =
        .ok (acc ++ flattenPages rest) r := by
  intro rest
  induction rest with
  | nil =>
    intro acc reqs _ hsum
    refine ⟨reqs, ?_⟩
    rw [downloadLoop.eq_def]
    simp only [sumLens, Nat.cast_zero, add_zero] at hsum
    simp [hsum, flattenPages]
  | cons l tail ih =>
    intro acc reqs hscript hsum
    simp only [sumLens, Nat.cast_add] at hsum
    by_cases hidx : (acc.length : Int) < tracksSize
    · obtain ⟨hstat, hitems⟩ := hscript 0 (by simp)
      simp only [Nat.add_zero, List.getD_cons_zero] at hstat hitems
      have hstep :
          downloadLoop script tracksSize (l :: tail).length (acc.length : Int) acc reqs =
          downloadLoop script tracksSize tail.length
            ((acc.length : Int) + l.length) (acc ++ l) (reqs + 1) := by
        rw [downloadLoop.eq_def]
        simp [hidx, hstat, hitems]
      obtain ⟨r, hr⟩ := ih (acc ++ l) (reqs + 1)
        (by
          intro i hi
          have := hscript (i + 1) (by simp; omega)
          simpa [Nat.add_comm, Nat.add_assoc, Nat.add_left_comm] using this)
        (by simp only [List.length_append]; push_cast; omega)
      refine ⟨r, ?_⟩
      rw [hstep]
      have hcast : ((acc ++ l).length : Int) = (acc.length : Int) + l.length := by
        push_cast [List.length_append]; ring
      rw [← hcast]
      rw [hr]
      simp [flattenPages, List.append_assoc]
    · -- the accumulated count already equals the total: the loop exits now
      -- and every remaining page must be empty
      have hle : (acc.length : Int) ≤ tracksSize := by
        have : (0 : Int) ≤ (l.length : Int) + (sumLens tail : Int) := by positivity
        omega
      have heq : (acc.length : Int) = tracksSize := by omega
      have hrest : (l.length : Int) + (sumLens tail : Int) = 0 := by omega
      have hl : l.length = 0 := by omega
      have htail : sumLens tail = 0 := by
        have : (sumLens tail : Int) = 0 := by omega
        exact_mod_cast this
      refine ⟨reqs, ?_⟩
      rw [downloadLoop.eq_def]
      simp [hidx, heq, flattenPages, List.length_eq_zero.mp hl,
        flattenPages_eq_nil htail]

/-- Running the loop from a state whose `index` equals the accumulated item
    count, against `k` good pages followed by a failing one: the loop makes
    exactly the `k+1` requests, sets `index = tracksSize + 1`, exits, and the
    reconciliation turns the result into `None`. -/
theorem downloadLoop_non200 (script : Nat → HttpResponse) (tracksSize : Int) :
    ∀ (k : Nat) (index : Int) (dlist : List JVal) (reqs : Nat),
      index = (dlist.length : Int) →
      (∀ i, i < k →
        (script (reqs + i)).status = 200 ∧
        lookup (script (reqs + i)).body "items" =
          some (.arr (itemsAt script (reqs + i)))) →
      (∀ i, i ≤ k → index + (cumLen script reqs i : Int) < tracksSize) →
      (script (reqs + k)).status ≠ 200 →
      downloadLoop script tracksSize (k + 1) index dlist reqs = .failed (reqs + k + 1) := by
  intro k
  induction k with
  | zero =>
    intro index dlist reqs hinv _ hlt hfail
    have hidx : index < tracksSize := by
      have := hlt 0 (by omega)
      simpa [cumLen] using this
    simp only [Nat.add_zero] at hfail
    have h2 : downloadLoop script tracksSize 0 (tracksSize + 1) dlist (reqs + 1) =
        .failed (reqs + 1) := by
      rw [downloadLoop.eq_def]
      simp [show ¬(tracksSize + 1 < tracksSize) by omega,
            show ¬((dlist.length : Int) = tracksSize) by omega]
    rw [downloadLoop.eq_def]
    simp [hidx, hfail, h2]
  | succ k ih =>
    intro index dlist reqs hinv hgood hlt hfail
    have hidx : index < tracksSize := by
      have := hlt 0 (by omega)
      simpa [cumLen] using this
    obtain ⟨hstat, hitems⟩ := hgood 0 (by omega)
    simp only [Nat.add_zero] at hstat hitems
    have hstep :
        downloadLoop script tracksSize (k + 1 + 1) index dlist reqs =
        downloadLoop script tracksSize (k + 1)
          (index + (itemsAt script reqs).length) (dlist ++ itemsAt script reqs) (reqs + 1) := by
      rw [downloadLoop.eq_def]
      simp [hidx, hstat, hitems]
    rw [hstep]
    have hres := ih (index + (itemsAt script reqs).length) (dlist ++ itemsAt script reqs) (reqs + 1)
      (by simp only [List.length_append]; push_cast; omega)
      (by
        intro i hi
        have := hgood (i + 1) (by omega)
        simpa [Nat.add_comm, Nat.add_assoc, Nat.add_left_comm] using this)
      (by
        intro i hi
        have := hlt (i + 1) (by omega)
        simp only [cumLen] at this
        push_cast at this ⊢
        omega)
      (by
        have : reqs + 1 + k = reqs + (k + 1) := by omega
        rw [this]
        exact hfail)
    rw [hres]
    have : reqs + 1 + k + 1 = reqs + (k + 1) + 1 := by omega
    rw [this]

/-- Running the loop from a state whose `index` equals the accumulated item
    count, against `k` good pages that stay strictly below the declared
    total until the last one jumps past it: the loop exits with more items
    than declared and the reconciliation turns the result into `None`. -/
theorem downloadLoop_overrun (script : Nat → HttpResponse) (tracksSize : Int) :
    ∀ (k : Nat) (index : Int) (dlist : List JVal) (reqs : Nat),
      index = (dlist.length : Int) →
      (∀ i, i < k →
        (script (reqs + i)).status = 200 ∧
        lookup (script (reqs + i)).body "items" =
          some (.arr (itemsAt script (reqs + i)))) →
      (∀ i, i < k → index + (cumLen script reqs i : Int) < tracksSize) →
      tracksSize < index + (cumLen script reqs k : Int) →
      downloadLoop script tracksSize k index dlist reqs = .failed (reqs + k) := by
  intro k
  induction k with
  | zero =>
    intro index dlist reqs hinv _ _ hover
    simp only [cumLen, Nat.cast_zero, add_zero] at hover
    rw [downloadLoop.eq_def]
    simp [show ¬(index < tracksSize) by omega,
          show ¬((dlist.length : Int) = tracksSize) by omega]
  | succ k ih =>
    intro index dlist reqs hinv hgood hlt hover
    have hidx : index < tracksSize := by
      have := hlt 0 (by omega)
      simpa [cumLen] using this
    obtain ⟨hstat, hitems⟩ := hgood 0 (by omega)
    simp only [Nat.add_zero] at hstat hitems
    have hstep :
        downloadLoop script tracksSize (k + 1) index dlist reqs =
        downloadLoop script tracksSize k
          (index + (itemsAt script reqs).length) (dlist ++ itemsAt script reqs) (reqs + 1) := by
      rw [downloadLoop.eq_def]
      simp [hidx, hstat, hitems]
    rw [hstep]
    have hres := ih (index + (itemsAt script reqs).length) (dlist ++ itemsAt script reqs) (reqs + 1)
      (by simp only [List.length_append]; push_cast; omega)
      (by
        intro i hi
        have := hgood (i + 1) (by omega)
        simpa [Nat.add_comm, Nat.add_assoc, Nat.add_left_comm] using this)
      (by
        intro i hi
        have := hlt (i + 1) (by omega)
        simp only [cumLen] at this
        push_cast at this ⊢
        omega)
      (by
        simp only [cumLen] at hover
        push_cast at hover ⊢
        omega)
    rw [hres]
    have : reqs + 1 + k = reqs + (k + 1) := by omega
    rw [this]

/-- C8: For every playlist with declared total `tracksTotal == 0`, the
    Paginated Track Fetcher issues zero page requests and returns a
    successful empty track list: the loop guard `index < self.tracks_size`
    fails at once with `index = 0`, and the reconciliation `0 == 0` makes
    `__download_tracks` return the empty accumulator, whatever the requester
    would have answered. -/
theorem downloadTracks_zero_total (script : Nat → HttpResponse) (fuel : Nat) :
    downloadTracks script 0 fuel = .ok [] 0 := by
  rw [downloadTracks, downloadLoop.eq_def]
  simp

/-- C6: For every declared total `T` and every partition of `T` items into
    successful pages served in order by the requester, the fetch succeeds
    and returns the concatenation of the pages' items in request order
    (exactly `T` items); and every successful fetch, on any script and any
    fuel, carries exactly `T` items. -/
theorem downloadTracks_partition_complete (script : Nat → HttpResponse)
    (tracksSize : Int) (pages : List (List JVal))
    (hscript : ∀ i, i < pages.length →
      (script i).status = 200 ∧
      lookup (script i).body "items" = some (.arr (pages.getD i [])))
    (hsum : (sumLens pages : Int) = tracksSize) :
    (downloadTracks script tracksSize pages.length).fetchItems =
        some (flattenPages pages) ∧
      ((flattenPages pages).length : Int) = tracksSize ∧
      ∀ (fuel : Nat) (items : List JVal) (r : Nat),
        downloadTracks script tracksSize fuel = .ok items r →
        (items.length : Int) = tracksSize := by
  obtain ⟨r, hr⟩ := downloadLoop_partition script tracksSize pages [] 0
    (by simpa using hscript) (by simpa using hsum)
  refine ⟨?_, ?_, ?_⟩
  · rw [downloadTracks]
    have h0 : ((List.nil (α := JVal)).length : Int) = 0 := by simp
    rw [← h0, hr]
    simp [FetchResult.fetchItems]
  · have h2 := downloadLoop_ok_length script tracksSize pages.length _ [] 0 _ r hr
    simpa using h2
  · intro fuel items r' h
    exact downloadLoop_ok_length script tracksSize fuel 0 [] 0 items r' h

/-- C5: For every declared total and every script whose first `k` pages are
    successful (status 200, `items` present) while staying below the total,
    and whose `(k+1)`-st response has a non-200 status, the fetch aborts at
    that page: exactly `k + 1` requests are issued (no retry, no further
    page), and the result is the `None`/IncompleteDownload failure. -/
theorem downloadTracks_non200_aborts (script : Nat → HttpResponse)
    (tracksSize : Int) (k : Nat)
    (hgood : ∀ i, i < k →
      (script i).status = 200 ∧
      lookup (script i).body "items" = some (.arr (itemsAt script i)))
    (hlt : ∀ i, i ≤ k → (cumLen script 0 i : Int) < tracksSize)
    (hfail : (script k).status ≠ 200) :
    downloadTracks script tracksSize (k + 1) = .failed (k + 1) := by
  have h := downloadLoop_non200 script tracksSize k 0 [] 0 (by simp)
    (by simpa using hgood)
    (by simpa using hlt)
    (by simpa using hfail)
  simpa using h

/-- C10: the terminal reconciliation is an exact-equality check, so
    over-delivery also fails: if the first `k-1` pages are successful and
    stay strictly below the declared total and the `k`-th successful page
    pushes the accumulated count strictly past it, the loop exits with more
    items than declared and the fetch is the `None`/IncompleteDownload
    failure, not a truncated or over-full success. -/
theorem downloadTracks_overrun_fails (script : Nat → HttpResponse)
    (tracksSize : Int) (k : Nat)
    (hgood : ∀ i, i < k →
      (script i).status = 200 ∧
      lookup (script i).body "items" = some (.arr (itemsAt script i)))
    (hlt : ∀ i, i < k → (cumLen script 0 i : Int) < tracksSize)
    (hover : tracksSize < (cumLen script 0 k : Int)) :
    downloadTracks script tracksSize k = .failed k := by
  have h := downloadLoop_overrun script tracksSize k 0 [] 0 (by simp)
    (by simpa using hgood)
    (by simpa using hlt)
    (by simpa using hover)
  simpa using h

/-- A scripted requester realising the spec's stalling scenario for a
    playlist declaring 120 tracks: the first page delivers 100 items, every
    later page is a successful response with an empty `items` list. -/
def stallScript : Nat → HttpResponse := fun n =>
  if n = 0 then ⟨200, [("items", .arr (List.replicate 100 .null))]⟩
  else ⟨200, [("items", .arr [])]⟩

theorem downloadLoop_stall (fuel : Nat) : ∀ (dlist : List JVal) (reqs : Nat),
    1 ≤ reqs → downloadLoop stallScript 120 fuel 100 dlist reqs = .diverge := by
  induction fuel with
  | zero =>
    intro dlist reqs _
    rw [downloadLoop.eq_def]
    simp [show (100 : Int) < 120 by norm_num]
  | succ f ih =>
    intro dlist reqs hr
    have hs : stallScript reqs = ⟨200, [("items", .arr [])]⟩ := by
      unfold stallScript
      rw [if_neg (by omega)]
    rw [downloadLoop.eq_def]
    simp only [hs, show (100 : Int) < 120 by norm_num, if_true, if_pos]
    simp [lookup]
    exact ih dlist (reqs + 1) (by omega)

/-- C2 (code bug): a run of successful pages whose cumulative item count
    stalls below the declared total makes `__download_tracks` loop forever —
    `index` only advances by `len(data['items'])`, so a status-200 page with
    an empty `items` list re-requests the same offset indefinitely and the
    reconciliation that would report `IncompleteDownload` is never reached.
    For every fuel bound the loop is still running. -/
theorem downloadTracks_stall_diverges (fuel : Nat) :
    downloadTracks stallScript 120 fuel = .diverge := by
  cases fuel with
  | zero =>
    rw [downloadTracks, downloadLoop.eq_def]
    simp [show (0 : Int) < 120 by norm_num]
  | succ f =>
    have h0 : stallScript 0 = ⟨200, [("items", .arr (List.replicate 100 .null))]⟩ := rfl
    rw [downloadTracks, downloadLoop.eq_def]
    simp only [h0, show (0 : Int) < 120 by norm_num, if_true, if_pos]
    simp [lookup]
    exact downloadLoop_stall f (List.replicate 100 .null) 1 (by omega)

/-- A requester serving the partition 2+1 of a playlist declaring 3 tracks. -/
def partitionScript : Nat → HttpResponse := fun n =>
  if n = 0 then ⟨200, [("items", .arr [.null, .null])]⟩
  else if n = 1 then ⟨200, [("items", .arr [.null])]⟩
  else ⟨500, []⟩

/-- Witness for C6 at a concrete input: pages of sizes 2 and 1 for a declared
    total of 3 reconcile and return the 3 items in page-arrival order. -/
theorem downloadTracks_partition_complete_witness :
    (downloadTracks partitionScript 3 2).fetchItems =
      some [.null, .null, .null] :=
  (downloadTracks_partition_complete partitionScript 3 [[.null, .null], [.null]]
    (by decide) (by decide)).1

/-- A requester whose first page succeeds with 2 items and whose second
    response is an HTTP 404. -/
def non200Script : Nat → HttpResponse := fun n =>
  if n = 0 then ⟨200, [("items", .arr [.null, .null])]⟩
  else ⟨404, []⟩

/-- Witness for C5 at a concrete input: with 5 tracks declared, a 404 on the
    second page stops the fetch after exactly 2 requests with the
    IncompleteDownload failure. -/
theorem downloadTracks_non200_aborts_witness :
    downloadTracks non200Script 5 2 = .failed 2 :=
  downloadTracks_non200_aborts non200Script 5 1 (by decide) (by decide) (by decide)

/-- A requester whose every page carries 3 items. -/
def overrunScript : Nat → HttpResponse := fun _ =>
  ⟨200, [("items", .arr [.null, .null, .null])]⟩

/-- Witness for C10 at a concrete input: a playlist declaring 2 tracks served
    a single page of 3 items fails reconciliation after 1 request. -/
theorem downloadTracks_overrun_fails_witness :
    downloadTracks overrunScript 2 1 = .failed 1 :=
  downloadTracks_overrun_fails overrunScript 2 1 (by decide) (by decide) (by decide)

/-- The leniently-parsed Playlist record that §4.2 of the spec prescribes:
    each of description, name, owner, tracks.total/tracks.href, href is
    copied only if present, a missing field leaves the attribute unset, and
    tracks starts empty.  Stated from the spec's words, to be compared with
    what `parsePlaylist` (the source translation) produces. -/
def specLenientPlaylist (fields : List (String × JVal)) : PlaylistRec :=
  { description := lookup fields "description"
    name := lookup fields "name"
    owner := lookup fields "owner"
    tracks_size := (lookup fields "tracks").bind fun tv =>
      match tv with
      | .obj tfs => lookup tfs "total"
      | _ => none
    tracks_uri := (lookup fields "tracks").bind fun tv =>
      match tv with
      | .obj tfs => lookup tfs "href"
      | _ => none
    uri := lookup fields "href"
    tracks := [] }

/-- C3 counterexample: the claim says the Playlist Parser never raises, in
    particular not on an item lacking the `type` key — but on the empty dict
    the inverted guard `if 'type' not in data.keys():` makes the subsequent
    subscript `data['type']` raise `KeyError('type')`. -/
theorem parsePlaylist_missing_type_raises :
    parsePlaylist (.obj []) = .error (.keyError "type") := rfl

/-- C3 (amended): on every raw playlist item that contains the `type` key
    and whose `tracks` value, when present, is a dict carrying both `total`
    and `href`, the parser succeeds and copies exactly the fields that are
    present, leaving missing ones unset and `tracks` empty — the lenient
    behavior the spec describes holds only on such items. -/
theorem parsePlaylist_lenient_amended (fields : List (String × JVal)) (tv : JVal)
    (htype : lookup fields "type" = some tv)
    (htracks : ∀ tv', lookup fields "tracks" = some tv' →
      ∃ tfs, tv' = .obj tfs ∧ (lookup tfs "total").isSome ∧ (lookup tfs "href").isSome) :
    parsePlaylist (.obj fields) = .ok (specLenientPlaylist fields) := by
  cases htr : lookup fields "tracks" with
  | none =>
    simp [parsePlaylist, htype, htr, specLenientPlaylist]
  | some tv' =>
    obtain ⟨tfs, rfl, h1, h2⟩ := htracks tv' htr
    obtain ⟨total, htotal⟩ := Option.isSome_iff_exists.mp h1
    obtain ⟨href, hhref⟩ := Option.isSome_iff_exists.mp h2
    simp [parsePlaylist, htype, htr, getItem, htotal, hhref, specLenientPlaylist]

/-- Witness for C3's amended claim at a concrete input: an item with a
    `type` tag, a `name` and nothing else parses to the record with only
    `name` (and nothing else) set. -/
theorem parsePlaylist_lenient_witness :
    parsePlaylist (.obj [("type", .str "playlist"), ("name", .str "P")]) =
      .ok (specLenientPlaylist [("type", .str "playlist"), ("name", .str "P")]) :=
  parsePlaylist_lenient_amended _ (.str "playlist") rfl
    (fun tv' h => by simp [lookup] at h)

/-- C4 counterexample: the claim says a present-but-falsy nested payload
    fails with the empty-payload `InvalidTrack` failure independently of the
    type-tag check — but on `{'track': {}}` the subscript
    `self.track['type']` at line 196 raises `KeyError('type')` before the
    `if not data['track']` test at line 198 ever runs. -/
theorem parseTrack_empty_payload_keyError :
    parseTrack (.obj [("track", .obj [])]) = .error (.keyError "type") := rfl

/-- C4 (amended): every raw item whose nested `track` payload is present and
    falsy does fail, but always with the error raised by reading the type
    tag (`KeyError('type')` on the empty dict, `TypeError` on any other
    falsy payload) — never with the line-198 empty-payload exception, whose
    check is unreachable for falsy payloads. -/
theorem parseTrack_falsy_payload_amended (dfs : List (String × JVal)) (tv : JVal)
    (htrack : lookup dfs "track" = some tv) (hfalsy : isFalsy tv = true) :
    parseTrack (.obj dfs) =
      .error (if tv = .obj [] then .keyError "type" else .typeError) := by
  cases tv with
  | obj tfs =>
    have h : tfs = [] := by simpa [isFalsy] using hfalsy
    subst h
    simp [parseTrack, htrack, lookup]
  | null => simp [parseTrack, htrack]
  | bool b => simp [parseTrack, htrack]
  | int n => simp [parseTrack, htrack]
  | str s => simp [parseTrack, htrack]
  | arr l => simp [parseTrack, htrack]

/-- Witness for C4's amended claim at a concrete input: a present `null`
    payload fails with the `TypeError` of subscripting `None`. -/
theorem parseTrack_falsy_payload_witness :
    parseTrack (.obj [("track", .null)]) = .error .typeError := by
  have h := parseTrack_falsy_payload_amended [("track", .null)] .null rfl rfl
  simpa using h

/-- When every element of a listing parses, `mapM` over the playlist parser
    succeeds and returns the parses in input order. -/
theorem mapM_parsePlaylist_all_ok :
    ∀ (l : List JVal), (∀ x ∈ l, ∃ r, parsePlaylist x = .ok r) →
      ∃ rs, l.mapM parsePlaylist = .ok rs ∧ rs.length = l.length ∧
        ∀ i, i < l.length →
          parsePlaylist (l.getD i .null) = .ok (rs.getD i {}) := by
  intro l
  induction l with
  | nil =>
    intro _
    exact ⟨[], rfl, rfl, fun i hi => absurd hi (by simp)⟩
  | cons x xs ih =>
    intro h
    obtain ⟨r, hr⟩ := h x (by simp)
    obtain ⟨rs, hrs, hlen, hpt⟩ := ih (fun y hy => h y (by simp [hy]))
    refine ⟨r :: rs, ?_, by simp [hlen], ?_⟩
    · rw [List.mapM_cons, hr, hrs]
      rfl
    · intro i hi
      cases i with
      | zero => simpa using hr
      | succ j =>
        have := hpt j (by simpa using hi)
        simpa using this

/-- C7 counterexample: on a 200 listing response with matching counts
    (`total = 1`, one item) whose single item lacks the `type` key, the
    enumerator does not return one parsed record — `Playlist(item)` raises
    `KeyError('type')` and the exception propagates out of
    `spotify_get_playlists`. -/
theorem spotify_get_playlists_parse_raises :
    spotify_get_playlists ⟨200, [("total", .int 1), ("items", .arr [.obj []])]⟩ =
      .error (.keyError "type") := rfl

/-- C7 (amended): for every 200 listing response carrying `total` and an
    `items` list, a count mismatch returns the empty playlist list (never a
    partial set); on a count match the enumerator returns exactly
    `len(items)` parsed records in listing order provided every item parses
    — an unparseable item instead raises an uncaught exception. -/
theorem spotify_get_playlists_amended (resp : HttpResponse) (tv : JVal)
    (its : List JVal)
    (hstatus : resp.status = 200)
    (htotal : lookup resp.body "total" = some tv)
    (hitems : lookup resp.body "items" = some (.arr its)) :
    (tv ≠ .int its.length → spotify_get_playlists resp = .ok []) ∧
    (tv = .int its.length →
      (∀ x ∈ its, ∃ r, parsePlaylist x = .ok r) →
      ∃ rs, spotify_get_playlists resp = .ok rs ∧ rs.length = its.length ∧
        ∀ i, i < its.length →
          parsePlaylist (its.getD i .null) = .ok (rs.getD i {})) := by
  constructor
  · intro hne
    simp [spotify_get_playlists, hstatus, htotal, hitems, pyLen, pyElems, hne]
  · intro heq hall
    obtain ⟨rs, hrs, hlen, hpt⟩ := mapM_parsePlaylist_all_ok its hall
    refine ⟨rs, ?_, hlen, hpt⟩
    rw [spotify_get_playlists, if_pos hstatus, htotal, hitems]
    subst heq
    simpa [pyLen, pyElems] using hrs

/-- Witness for C7's amended claim at a concrete input, mirroring the spec's
    example: `total = 5` against 3 returned items yields the empty playlist
    list. -/
theorem spotify_get_playlists_amended_witness :
    spotify_get_playlists ⟨200, [("total", .int 5),
      ("items", .arr [.obj [("type", .str "playlist")],
                      .obj [("type", .str "playlist")],
                      .obj [("type", .str "playlist")]])]⟩ = .ok [] :=
  (spotify_get_playlists_amended
    ⟨200, [("total", .int 5),
      ("items", .arr [.obj [("type", .str "playlist")],
                      .obj [("type", .str "playlist")],
                      .obj [("type", .str "playlist")]])]⟩
    (.int 5)
    [.obj [("type", .str "playlist")], .obj [("type", .str "playlist")],
     .obj [("type", .str "playlist")]]
    rfl rfl rfl).1 (by decide)

/-- A record accepted by `parseTrackFinish` carries exactly the artist pair
    it was given. -/
theorem parseTrackFinish_artist (tfs : List (String × JVal)) (album : Option JVal)
    (ar : Option JVal × Option JVal) (t : TrackRec)
    (h : parseTrackFinish tfs album ar = .ok t) :
    t.artist = ar.1 ∧ t.spotify_url = ar.2 := by
  rw [parseTrackFinish] at h
  split at h
  · exact absurd h (by simp)
  · split at h
    · exact absurd h (by simp)
    · cases h
      exact ⟨rfl, rfl⟩

/-- A raw item whose payload lists no artists (key absent or empty list)
    parses to a track with `artist` and `spotify_url` unset. -/
theorem parseTrackArtists_none (tfs : List (String × JVal)) (album : Option JVal)
    (t : TrackRec)
    (hart : lookup tfs "artists" = none ∨ lookup tfs "artists" = some (.arr []))
    (h : parseTrackArtists tfs album = .ok t) :
    t.artist = none ∧ t.spotify_url = none := by
  rcases hart with hart | hart
  · rw [parseTrackArtists, hart] at h
    exact parseTrackFinish_artist tfs album (none, none) t h
  · rw [parseTrackArtists, hart] at h
    simp only [pyLen, List.length_nil, Nat.lt_irrefl, if_false] at h
    exact parseTrackFinish_artist tfs album (none, none) t h

/-- C9 helper: a successful parse of an item whose payload lists no artists
    leaves `artist` and `spotify_url` unset. -/
theorem parseTrack_no_artists (dfs tfs : List (String × JVal)) (t : TrackRec)
    (htrack : lookup dfs "track" = some (.obj tfs))
    (hart : lookup tfs "artists" = none ∨ lookup tfs "artists" = some (.arr []))
    (hok : parseTrack (.obj dfs) = .ok t) :
    t.artist = none ∧ t.spotify_url = none := by
  simp only [parseTrack, htrack] at hok
  split at hok
  · exact absurd hok (by simp)
  · split at hok
    · exact absurd hok (by simp)
    · split at hok
      · exact absurd hok (by simp)
      · split at hok
        · split at hok
          · exact absurd hok (by simp)
          · exact parseTrackArtists_none tfs _ t hart hok
        · exact parseTrackArtists_none tfs _ t hart hok

/-- Whether an `Except` result is an uncaught `AttributeError`. -/
def isAttributeError {α : Type} : Except PyErr α → Bool
  | .error (.attributeError _) => true
  | _ => false

/-- Every failure of `trackRow` is an `AttributeError` (the row only reads
    attributes). -/
theorem trackRow_error_attr (t : TrackRec) (e : PyErr)
    (h : trackRow t = .error e) : ∃ f, e = .attributeError f := by
  rw [trackRow] at h
  split at h
  · cases h
    exact ⟨"album", rfl⟩
  · split at h
    · cases h
      exact ⟨"artist", rfl⟩
    · split at h
      · cases h
        exact ⟨"spotify_url", rfl⟩
      · exact absurd h (by simp)

/-- A track whose `artist` attribute is unset never yields a row. -/
theorem trackRow_artist_none (t : TrackRec) (hart : t.artist = none)
    (row : List JVal) (h : trackRow t = .ok row) : False := by
  rw [trackRow] at h
  split at h
  · exact absurd h (by simp)
  · rw [hart] at h
    exact absurd h (by simp)

/-- Writing the rows of a track list containing a track with unset `artist`
    always raises an `AttributeError`. -/
theorem mapM_trackRow_error :
    ∀ (l : List TrackRec) (t : TrackRec), t ∈ l → t.artist = none →
      ∃ f, l.mapM trackRow = .error (.attributeError f) := by
  intro l
  induction l with
  | nil =>
    intro t ht _
    cases ht
  | cons x xs ih =>
    intro t ht hart
    rw [List.mapM_cons]
    cases hx : trackRow x with
    | error e =>
      obtain ⟨f, rfl⟩ := trackRow_error_attr x e hx
      exact ⟨f, rfl⟩
    | ok row =>
      have hmem : t ∈ xs := by
        rcases List.mem_cons.mp ht with rfl | hmem
        · exact absurd hx (fun hx => trackRow_artist_none t hart row hx)
        · exact hmem
      obtain ⟨f, hf⟩ := ih t hmem hart
      refine ⟨f, ?_⟩
      rw [hf]
      rfl

/-- C9: for every track parsed from a raw item whose payload lists no
    artists — so `artist` and `spotify_url` are left unset by the successful
    parse — writing the CSV section of any playlist containing that track
    raises an attribute-access error: `write_csv` unconditionally reads
    `track.artist` and `track.spotify_url` (line 127) for every track, so
    such a playlist cannot be exported. -/
theorem write_csv_artistless_error (dfs tfs : List (String × JVal))
    (t : TrackRec) (p : PlaylistRec)
    (htrack : lookup dfs "track" = some (.obj tfs))
    (hart : lookup tfs "artists" = none ∨ lookup tfs "artists" = some (.arr []))
    (hok : parseTrack (.obj dfs) = .ok t)
    (hmem : t ∈ p.tracks) :
    t.artist = none ∧ t.spotify_url = none ∧
      isAttributeError (write_csv p) = true := by
  obtain ⟨h1, h2⟩ := parseTrack_no_artists dfs tfs t htrack hart hok
  refine ⟨h1, h2, ?_⟩
  rw [write_csv]
  split
  · rfl
  · obtain ⟨f, hf⟩ := mapM_trackRow_error p.tracks t hmem h1
    rw [hf]
    rfl

/-- A raw track item with album/name/number but no `artists` key. -/
def artistlessTrackItem : List (String × JVal) :=
  [("track", .obj [("type", .str "track"),
                   ("album", .obj [("name", .str "A")]),
                   ("name", .str "S"),
                   ("track_number", .int 1)])]

/-- The track that `artistlessTrackItem` parses to. -/
def artistlessTrack : TrackRec :=
  { album := some (.str "A"), name := .str "S", track_number := .int 1 }

/-- A playlist holding that track. -/
def artistlessPlaylist : PlaylistRec :=
  { name := some (.str "P"), tracks := [artistlessTrack] }

/-- Witness for C9 at a concrete input: the artistless track parses with
    `artist`/`spotify_url` unset and its playlist's CSV export raises an
    `AttributeError`. -/
theorem write_csv_artistless_error_witness :
    artistlessTrack.artist = none ∧ artistlessTrack.spotify_url = none ∧
      isAttributeError (write_csv artistlessPlaylist) = true :=
  write_csv_artistless_error artistlessTrackItem
    [("type", .str "track"), ("album", .obj [("name", .str "A")]),
     ("name", .str "S"), ("track_number", .int 1)]
    artistlessTrack artistlessPlaylist rfl (Or.inl rfl) rfl (by decide)

/-- C1 (amended): per-playlist failure isolation holds only for fetcher
    failures.  (1) When `__download_tracks` fails (HTTP error or count
    mismatch), `get_tracks` returns `False` leaving the playlist's tracks
    unchanged; (2) when no playlist's `get_tracks` raises, every playlist in
    the batch is processed; (3) but a track-parse exception propagates out
    of `get_tracks` and aborts the whole batch at that playlist — the
    remaining playlists are never processed, whatever they are. -/
theorem aggregation_failure_isolation_amended :
    (∀ (requester : JVal → Nat → HttpResponse) (fuel : Nat) (p : PlaylistRec)
       (tracksSize : Int) (u : JVal) (r : Nat),
       p.tracks_size = some (.int tracksSize) → p.tracks_uri = some u →
       downloadTracks (requester u) tracksSize fuel = .failed r →
       getTracks requester fuel p = .done p.tracks false) ∧
    (∀ (requester : JVal → Nat → HttpResponse) (fuel : Nat)
       (ps acc : List PlaylistRec),
       (∀ p ∈ ps, (getTracks requester fuel p).isDone = true) →
       ∃ out, runTrackAggregation requester fuel ps acc = .done out ∧
         out.length = acc.length + ps.length) ∧
    (∀ (requester : JVal → Nat → HttpResponse) (fuel : Nat) (p : PlaylistRec)
       (ps acc : List PlaylistRec) (tr : List TrackRec) (e : PyErr),
       getTracks requester fuel p = .exn tr e →
       runTrackAggregation requester fuel (p :: ps) acc =
         .exn (acc.reverse ++ [setTracks p tr]) e) := by
  refine ⟨?_, ?_, ?_⟩
  · intro requester fuel p tracksSize u r hsize huri hdl
    simp only [getTracks, hsize, huri, hdl]
  · intro requester fuel ps
    induction ps with
    | nil =>
      intro acc _
      exact ⟨acc.reverse, rfl, by simp⟩
    | cons p ps ih =>
      intro acc hall
      have hp := hall p (by simp)
      cases hg : getTracks requester fuel p with
      | done tr ret =>
        obtain ⟨out, hout, hlen⟩ := ih (setTracks p tr :: acc)
          (fun q hq => hall q (by simp [hq]))
        refine ⟨out, ?_, ?_⟩
        · simp only [runTrackAggregation, hg]
          exact hout
        · simp only [List.length_cons] at hlen ⊢
          omega
      | diverge =>
        rw [hg] at hp
        simp [GetTracksResult.isDone] at hp
      | exn tr e =>
        rw [hg] at hp
        simp [GetTracksResult.isDone] at hp
  · intro requester fuel p ps acc tr e hg
    simp only [runTrackAggregation, hg]

/-- A raw track-wrapper item that parses successfully. -/
def goodTrackItem : JVal :=
  .obj [("track", .obj [("type", .str "track"), ("name", .str "S"),
                        ("track_number", .int 1)])]

/-- A scripted requester: playlist URI `u1` serves one malformed track item
    (no `track` key), URI `uf` answers 404, every other URI serves one good
    track item. -/
def cexRequester : JVal → Nat → HttpResponse := fun u _ =>
  if u = .str "u1" then ⟨200, [("items", .arr [.obj []])]⟩
  else if u = .str "uf" then ⟨404, []⟩
  else ⟨200, [("items", .arr [goodTrackItem])]⟩

/-- A playlist whose single raw track item fails to parse. -/
def cexPlaylist1 : PlaylistRec :=
  { name := some (.str "P1"), tracks_size := some (.int 1),
    tracks_uri := some (.str "u1") }

/-- A healthy playlist scheduled after `cexPlaylist1`. -/
def cexPlaylist2 : PlaylistRec :=
  { name := some (.str "P2"), tracks_size := some (.int 1),
    tracks_uri := some (.str "u2") }

/-- A playlist whose page request fails with HTTP 404. -/
def cexFailPlaylist : PlaylistRec :=
  { name := some (.str "PF"), tracks_size := some (.int 5),
    tracks_uri := some (.str "uf") }

/-- C1 counterexample: with two playlists queued, a track-parse failure
    (`Track({})` raises) on the first one does not leave it behind and move
    on — the exception propagates out of `get_tracks` and out of `main`'s
    loop, so the batch stops after the first playlist and the second is
    never populated, refuting the claim that no parser failure aborts the
    whole batch. -/
theorem trackParseFailure_aborts_batch :
    runTrackAggregation cexRequester 2 [cexPlaylist1, cexPlaylist2] [] =
      .exn [cexPlaylist1] (.exn "Invalid track dictionary for initialization") := by
  decide

/-- Witness for C1's amended claim at concrete inputs: a 404 fetch failure
    leaves the playlist with no tracks and `get_tracks` returning `False`
    (isolated), while a parse failure aborts the batch. -/
theorem aggregation_failure_isolation_witness :
    getTracks cexRequester 1 cexFailPlaylist = .done [] false ∧
    runTrackAggregation cexRequester 1 [cexPlaylist1, cexPlaylist2] [] =
      .exn [cexPlaylist1] (.exn "Invalid track dictionary for initialization") :=
  ⟨aggregation_failure_isolation_amended.1 cexRequester 1 cexFailPlaylist 5
      (.str "uf") 1 rfl rfl (by decide),
   aggregation_failure_isolation_amended.2.2 cexRequester 1 cexPlaylist1
      [cexPlaylist2] [] [] (.exn "Invalid track dictionary for initialization")
      (by decide)⟩
